import Mathlib

/-!
Shallow embedding of the TrustLink connections service
(`connections-service/cmd/connections-service/main.go`) together with the
`httpx` response helpers it uses.  The relationship store is modelled as a
keyed association list (the document-store contract: keyed get / set /
update-failing-on-missing-key / conjunctive equality queries), the event bus
as the list of attempted publishes, and `log.Error` calls as a list of error
log messages.  Fallible external calls (storage write, post-update read,
event publish) are driven by explicit success flags.
-/

namespace TrustLink

/-- Lexicographic comparison of character lists by code point; this is the
order `sort.Strings` uses on Go strings (byte-wise comparison of UTF-8
agrees with code-point order on valid strings). -/
def charListLe : List Char → List Char → Bool
  | [], _ => true
  | _ :: _, [] => false
  | c :: cs, d :: ds =>
    if c < d then true
    else if d < c then false
    else charListLe cs ds

/-- The order `sort.Strings` applies to two Go strings. -/
def goStringLe (a b : String) : Bool :=
  charListLe a.data b.data

/-- `createRelationshipID` from the connections service: sort the two UIDs
and join them with the fixed separator. -/
def createRelationshipID (uid1 uid2 : String) : String :=
  if goStringLe uid1 uid2 then uid1 ++ "_" ++ uid2 else uid2 ++ "_" ++ uid1

/-- Status constants of the service. -/
def StatusRequested : String := "requested"

def StatusAccepted : String := "accepted"

def StatusRejected : String := "rejected"

/-- The fields of a `Relationship` document as stored in the document store
(the `id` is the document key, not a stored field). -/
structure StoredRel where
  fromUid : String
  toUid : String
  status : String
  createdAt : Nat
  updatedAt : Nat
  deriving DecidableEq, Repr

/-- The `Relationship` JSON object returned to clients. -/
structure Relationship where
  id : String
  fromUid : String
  toUid : String
  status : String
  createdAt : Nat
  updatedAt : Nat
  deriving DecidableEq, Repr

/-- Request body of `POST /v1/connections/request`. -/
structure ConnectionRequestRequest where
  targetUid : String
  deriving DecidableEq, Repr

/-- Request body of `POST /v1/connections/accept` and `/reject`. -/
structure ConnectionActionRequest where
  fromUid : String
  deriving DecidableEq, Repr

/-- Payload published to the event bus. -/
structure ConnectionEvent where
  fromUid : String
  toUid : String
  createdAt : Nat
  deriving DecidableEq, Repr

/-- The document store: keyed records, keys unique by construction. -/
abbrev Store := List (String × StoredRel)

/-- Keyed read. -/
def docGet (s : Store) (k : String) : Option StoredRel :=
  (List.find? (fun p => p.1 == k) s).map (fun p => p.2)

/-- Keyed unconditional write (Firestore `Doc(k).Set`): overwrites any
record stored under `k`. -/
def docSet (s : Store) (k : String) (v : StoredRel) : Store :=
  List.filter (fun p => !(p.1 == k)) s ++ [(k, v)]

/-- Keyed field update (Firestore `Doc(k).Update` on the `status` and
`updatedAt` paths): fails when the key is absent. -/
def docUpdate (s : Store) (k : String) (newStatus : String) (now : Nat) :
    Option Store :=
  if List.any s (fun p => p.1 == k) then
    some (List.map
      (fun p => if p.1 == k then
          (p.1, { p.2 with status := newStatus, updatedAt := now })
        else p) s)
  else none

/-- HTTP results produced through the `httpx` helpers. -/
inductive HttpResult where
  | unauthorized (msg : String)
  | badRequest (msg : String)
  | notFound (msg : String)
  | internalServerError (msg : String)
  | created (rel : Relationship)
  | success (rel : Relationship)
  | successList (connections : List Relationship) (count : Nat)
  deriving DecidableEq, Repr

/-- The HTTP status code each `httpx` helper writes. -/
def HttpResult.statusCode : HttpResult → Nat
  | .unauthorized _ => 401
  | .badRequest _ => 400
  | .notFound _ => 404
  | .internalServerError _ => 500
  | .created _ => 201
  | .success _ => 200
  | .successList _ _ => 200

/-- An attempted publish: topic and payload. -/
abbrev Event := String × ConnectionEvent

/-- Outcome of one handler invocation: HTTP result, resulting store state,
attempted event publishes, and `log.Error` messages. -/
structure HandlerOut where
  res : HttpResult
  store : Store
  events : List Event
  errorLogs : List String
  deriving DecidableEq

/-- Build the returned `Relationship` from a document key and its stored
fields (`doc.DataTo` followed by `rel.ID = doc.Ref.ID`). -/
def relOf (k : String) (r : StoredRel) : Relationship :=
  { id := k, fromUid := r.fromUid, toUid := r.toUid, status := r.status,
    createdAt := r.createdAt, updatedAt := r.updatedAt }

/-- Handler of `POST /v1/connections/request`.  `uid?` is the authenticated
user id (absent when auth context is missing), `body?` the decoded JSON body
(absent on decode failure), `setOk` whether the Firestore `Set` succeeds,
`publishOk` whether the event-bus publish succeeds. -/
def requestConnection (uid? : Option String)
    (body? : Option ConnectionRequestRequest) (store : Store) (now : Nat)
    (setOk publishOk : Bool) : HandlerOut :=
  match uid? with
  | none => ⟨.unauthorized "User ID not found in context", store, [], []⟩
  | some uid =>
    match body? with
    | none => ⟨.badRequest "Invalid request body", store, [], []⟩
    | some req =>
      if req.targetUid = "" then
        ⟨.badRequest "targetUid is required", store, [], []⟩
      else if req.targetUid = uid then
        ⟨.badRequest "Cannot connect with yourself", store, [], []⟩
      else
        let relationshipID := createRelationshipID uid req.targetUid
        let relationship : Relationship :=
          { id := relationshipID, fromUid := uid, toUid := req.targetUid,
            status := StatusRequested, createdAt := now, updatedAt := now }
        if setOk then
          let store2 := docSet store relationshipID
            ⟨uid, req.targetUid, StatusRequested, now, now⟩
          let event : ConnectionEvent := ⟨uid, req.targetUid, now⟩
          ⟨.created relationship, store2, [("connection.requested", event)],
            if publishOk then []
            else ["Failed to publish connection.requested event"]⟩
        else
          ⟨.internalServerError "Failed to create connection request", store,
            [], ["Failed to create connection request"]⟩

/-- Handler of `POST /v1/connections/accept`.  `publishOk` drives the
event-bus publish, `readOk` the post-update `Get` of the document. -/
def acceptConnection (uid? : Option String)
    (body? : Option ConnectionActionRequest) (store : Store) (now : Nat)
    (publishOk readOk : Bool) : HandlerOut :=
  match uid? with
  | none => ⟨.unauthorized "User ID not found in context", store, [], []⟩
  | some uid =>
    match body? with
    | none => ⟨.badRequest "Invalid request body", store, [], []⟩
    | some req =>
      if req.fromUid = "" then
        ⟨.badRequest "fromUid is required", store, [], []⟩
      else
        let relationshipID := createRelationshipID req.fromUid uid
        match docUpdate store relationshipID StatusAccepted now with
        | none =>
          ⟨.internalServerError "Failed to accept connection", store, [],
            ["Failed to accept connection"]⟩
        | some store2 =>
          let event : ConnectionEvent := ⟨req.fromUid, uid, now⟩
          let logs1 : List String :=
            if publishOk then []
            else ["Failed to publish connection.accepted event"]
          if readOk then
            match docGet store2 relationshipID with
            | some stored =>
              ⟨.success (relOf relationshipID stored), store2,
                [("connection.accepted", event)], logs1⟩
            | none =>
              ⟨.internalServerError "Failed to get updated relationship",
                store2, [("connection.accepted", event)],
                logs1 ++ ["Failed to get updated relationship"]⟩
          else
            ⟨.internalServerError "Failed to get updated relationship",
              store2, [("connection.accepted", event)],
              logs1 ++ ["Failed to get updated relationship"]⟩

/-- Handler of `POST /v1/connections/reject`.  Publishes no event. -/
def rejectConnection (uid? : Option String)
    (body? : Option ConnectionActionRequest) (store : Store) (now : Nat)
    (readOk : Bool) : HandlerOut :=
  match uid? with
  | none => ⟨.unauthorized "User ID not found in context", store, [], []⟩
  | some uid =>
    match body? with
    | none => ⟨.badRequest "Invalid request body", store, [], []⟩
    | some req =>
      if req.fromUid = "" then
        ⟨.badRequest "fromUid is required", store, [], []⟩
      else
        let relationshipID := createRelationshipID req.fromUid uid
        match docUpdate store relationshipID StatusRejected now with
        | none =>
          ⟨.internalServerError "Failed to reject connection", store, [],
            ["Failed to reject connection"]⟩
        | some store2 =>
          if readOk then
            match docGet store2 relationshipID with
            | some stored =>
              ⟨.success (relOf relationshipID stored), store2, [], []⟩
            | none =>
              ⟨.internalServerError "Failed to get updated relationship",
                store2, [], ["Failed to get updated relationship"]⟩
          else
            ⟨.internalServerError "Failed to get updated relationship",
              store2, [], ["Failed to get updated relationship"]⟩

/-- The query `Where("fromUid","==",uid).Where("status","==",status)`
followed by the `DataTo` / `Ref.ID` loop. -/
def queryByFromStatus (store : Store) (uid status : String) :
    List Relationship :=
  List.map (fun p => relOf p.1 p.2)
    (List.filter (fun p => p.2.fromUid == uid && p.2.status == status) store)

/-- The query `Where("toUid","==",uid).Where("status","==",status)`. -/
def queryByToStatus (store : Store) (uid status : String) :
    List Relationship :=
  List.map (fun p => relOf p.1 p.2)
    (List.filter (fun p => p.2.toUid == uid && p.2.status == status) store)

/-- Handler of `GET /v1/connections`.  `statusParam` is the raw `status`
query parameter (`""` when absent, as `URL.Query().Get` returns). -/
def getConnections (uid? : Option String) (statusParam : String)
    (store : Store) : HandlerOut :=
  match uid? with
  | none => ⟨.unauthorized "User ID not found in context", store, [], []⟩
  | some uid =>
    let status := if statusParam = "" then StatusAccepted else statusParam
    let relationships :=
      queryByFromStatus store uid status ++ queryByToStatus store uid status
    ⟨.successList relationships relationships.length, store, [], []⟩

/-! ### Properties of the string order used by `sort.Strings` -/

theorem charListLe_total (a b : List Char) :
    charListLe a b = true ∨ charListLe b a = true := by
  induction a generalizing b with
  | nil => exact Or.inl rfl
  | cons c cs ih =>
    cases b with
    | nil => exact Or.inr rfl
    | cons d ds =>
      by_cases h1 : c < d
      · exact Or.inl (by simp [charListLe, h1])
      · by_cases h2 : d < c
        · exact Or.inr (by simp [charListLe, h2, lt_asymm h2])
        · rcases ih ds with h | h
          · exact Or.inl (by simp [charListLe, h1, h2, h])
          · exact Or.inr (by simp [charListLe, h1, h2, h])

theorem charListLe_antisymm (a b : List Char) :
    charListLe a b = true → charListLe b a = true → a = b := by
  induction a generalizing b with
  | nil =>
    intro _ h2
    cases b with
    | nil => rfl
    | cons d ds => simp [charListLe] at h2
  | cons c cs ih =>
    intro h1 h2
    cases b with
    | nil => simp [charListLe] at h1
    | cons d ds =>
      by_cases hcd : c < d
      · simp [charListLe, hcd, lt_asymm hcd] at h2
      · by_cases hdc : d < c
        · simp [charListLe, hcd, hdc] at h1
        · have hce : c = d := le_antisymm (not_lt.mp hdc) (not_lt.mp hcd)
          subst hce
          simp only [charListLe, lt_irrefl, if_false] at h1 h2
          rw [ih ds h1 h2]

/-- Splitting at a separator character absent from the left parts is
unambiguous. -/
theorem append_sep_inj (a b c d : List Char)
    (ha : '_' ∉ a) (hc : '_' ∉ c)
    (h : a ++ '_' :: b = c ++ '_' :: d) : a = c ∧ b = d := by
  induction a generalizing c with
  | nil =>
    cases c with
    | nil => simpa using h
    | cons y cs =>
      exfalso
      simp only [List.nil_append, List.cons_append, List.cons.injEq] at h
      exact hc (h.1 ▸ List.mem_cons_self y cs)
  | cons x xs ih =>
    cases c with
    | nil =>
      exfalso
      simp only [List.nil_append, List.cons_append, List.cons.injEq] at h
      exact ha (h.1.symm ▸ List.mem_cons_self x xs)
    | cons y cs =>
      simp only [List.cons_append, List.cons.injEq] at h
      obtain ⟨hxy, htail⟩ := h
      have hrec := ih cs (fun hm => ha (List.mem_cons_of_mem x hm))
        (fun hm => hc (List.mem_cons_of_mem y hm)) htail
      exact ⟨by rw [hxy, hrec.1], hrec.2⟩

theorem str_data_inj (a b : String) (h : a.data = b.data) : a = b := by
  cases a
  cases b
  exact congrArg String.mk h

theorem data_sep (x y : String) :
    (x ++ "_" ++ y).data = x.data ++ '_' :: y.data := by
  simp [String.data_append]

/-! ### Properties of the document-store model -/

theorem docGet_docSet_self (s : Store) (k : String) (v : StoredRel) :
    docGet (docSet s k v) k = some v := by
  unfold docGet docSet
  have hnone : List.find? (fun p : String × StoredRel => p.1 == k)
      (List.filter (fun p => !(p.1 == k)) s) = none := by
    rw [List.find?_eq_none]
    intro x hx
    have := List.of_mem_filter hx
    simp at this
    simp [this]
  rw [List.find?_append, hnone]
  simp

theorem docGet_docSet_ne (s : Store) (k k' : String) (v : StoredRel)
    (h : k' ≠ k) : docGet (docSet s k v) k' = docGet s k' := by
  unfold docGet docSet
  rw [List.find?_append]
  have hkk : (k == k') = false := by
    simp [Ne.symm h]
  have hlast : List.find? (fun p : String × StoredRel => p.1 == k')
      [(k, v)] = none := by
    simp [List.find?, hkk]
  rw [hlast]
  have hfilter : List.find? (fun p : String × StoredRel => p.1 == k')
      (List.filter (fun p => !(p.1 == k)) s) =
      List.find? (fun p => p.1 == k') s := by
    induction s with
    | nil => rfl
    | cons p ps ih =>
      by_cases hp : p.1 == k
      · have hp' : (p.1 == k') = false := by
          have : p.1 = k := by simpa using hp
          simp [this, Ne.symm h]
        simp [List.filter_cons, List.find?_cons, hp, hp', ih]
      · simp only [List.filter_cons, hp]
        by_cases hp' : p.1 == k'
        · simp [List.find?_cons, hp', hp]
        · simp [List.find?_cons, hp', hp, ih]
  rw [hfilter]
  simp

theorem countP_docSet (s : Store) (k : String) (v : StoredRel) :
    List.countP (fun p => p.1 == k) (docSet s k v) = 1 := by
  unfold docSet
  rw [List.countP_append]
  have h0 : List.countP (fun p : String × StoredRel => p.1 == k)
      (List.filter (fun p => !(p.1 == k)) s) = 0 := by
    rw [List.countP_eq_zero]
    intro x hx
    have := List.of_mem_filter hx
    simpa using this
  simp [h0, List.countP_cons]

theorem docUpdate_eq_none_iff (s : Store) (k st : String) (now : Nat) :
    docUpdate s k st now = none ↔ docGet s k = none := by
  unfold docUpdate docGet
  rw [Option.map_eq_none', List.find?_eq_none]
  by_cases h : List.any s (fun p => p.1 == k)
  · rw [if_pos h]
    rw [List.any_eq_true] at h
    obtain ⟨x, hx, hpx⟩ := h
    constructor
    · intro hcontra
      exact absurd hcontra (by simp)
    · intro hall
      exact absurd hpx (by simpa using hall x hx)
  · rw [if_neg h]
    rw [List.any_eq_true] at h
    push_neg at h
    constructor
    · intro _ x hx
      simpa using h x hx
    · intro _
      rfl

theorem find?_map_docUpdate (s : Store) (k' k st : String) (now : Nat) :
    List.find? (fun p => p.1 == k')
        (List.map (fun p => if p.1 == k then
            (p.1, { p.2 with status := st, updatedAt := now })
          else p) s) =
      Option.map (fun p : String × StoredRel => if p.1 == k then
            (p.1, { p.2 with status := st, updatedAt := now })
          else p)
        (List.find? (fun p => p.1 == k') s) := by
  rw [List.find?_map]
  have hfun : ((fun p : String × StoredRel => p.1 == k') ∘
      (fun p : String × StoredRel => if p.1 == k then
          (p.1, { p.2 with status := st, updatedAt := now })
        else p)) =
      fun p : String × StoredRel => p.1 == k' := by
    funext q
    by_cases h : (q.1 == k) = true
    · simp only [Function.comp_apply, if_pos h]
    · simp only [Function.comp_apply, if_neg h]
  rw [hfun]

theorem docUpdate_some_get (s s2 : Store) (k st : String) (now : Nat)
    (r : StoredRel) (hupd : docUpdate s k st now = some s2)
    (hget : docGet s k = some r) :
    docGet s2 k = some { r with status := st, updatedAt := now } ∧
    ∀ k', k' ≠ k → docGet s2 k' = docGet s k' := by
  have hany : List.any s (fun p => p.1 == k) = true := by
    rw [List.any_eq_true]
    unfold docGet at hget
    cases hf : List.find? (fun p : String × StoredRel => p.1 == k) s with
    | none => rw [hf] at hget; simp at hget
    | some q =>
      have hq := List.find?_some hf
      exact ⟨q, List.mem_of_find?_eq_some hf, hq⟩
  unfold docUpdate at hupd
  rw [if_pos hany] at hupd
  have hs2 : s2 = List.map
      (fun p => if p.1 == k then
          (p.1, { p.2 with status := st, updatedAt := now })
        else p) s := (Option.some_inj.mp hupd).symm
  subst hs2
  constructor
  · unfold docGet
    rw [find?_map_docUpdate]
    unfold docGet at hget
    cases hf : List.find? (fun p : String × StoredRel => p.1 == k) s with
    | none => rw [hf] at hget; simp at hget
    | some q =>
      rw [hf] at hget
      have hq := List.find?_some hf
      simp only [Option.map_some'] at hget ⊢
      rw [if_pos hq]
      have hqr : q.2 = r := Option.some_inj.mp hget
      rw [← hqr]
  · intro k' hk'
    unfold docGet
    rw [find?_map_docUpdate]
    cases hf : List.find? (fun p : String × StoredRel => p.1 == k') s with
    | none => simp
    | some q =>
      have hq := List.find?_some hf
      have hq1 : q.1 = k' := by simpa using hq
      have hqk : (q.1 == k) = false := by simp [hq1, hk']
      simp only [Option.map_some']
      rw [if_neg (by simp [hqk])]

/-! ### Properties of `createRelationshipID` and the handlers -/

theorem createRelationshipID_comm (a b : String) :
    createRelationshipID a b = createRelationshipID b a := by
  unfold createRelationshipID goStringLe
  by_cases h1 : charListLe a.data b.data = true
  · by_cases h2 : charListLe b.data a.data = true
    · have hab : a = b := str_data_inj a b (charListLe_antisymm _ _ h1 h2)
      subst hab
      rfl
    · have h2f : charListLe b.data a.data = false := by simpa using h2
      rw [if_pos h1, if_neg (by simp [h2f])]
  · have h1f : charListLe a.data b.data = false := by simpa using h1
    have h2 : charListLe b.data a.data = true := by
      rcases charListLe_total a.data b.data with h | h
      · exact absurd h h1
      · exact h
    rw [if_neg (by simp [h1f]), if_pos h2]

/-- Shape of a `requestConnection` call that passes validation and whose
storage write succeeds. -/
theorem requestConnection_ok (uid target : String) (store : Store)
    (now : Nat) (publishOk : Bool) (h1 : target ≠ "") (h2 : target ≠ uid) :
    requestConnection (some uid) (some ⟨target⟩) store now true publishOk =
      ⟨.created ⟨createRelationshipID uid target, uid, target,
          StatusRequested, now, now⟩,
        docSet store (createRelationshipID uid target)
          ⟨uid, target, StatusRequested, now, now⟩,
        [("connection.requested", ⟨uid, target, now⟩)],
        if publishOk then []
        else ["Failed to publish connection.requested event"]⟩ := by
  simp only [requestConnection]
  rw [if_neg h1, if_neg h2, if_pos trivial]

/-- C1: for distinct non-empty identifiers the derived relationship id is
symmetric, and `Request(a,b)` followed by `Request(b,a)` leaves exactly one
stored record under that id. -/
theorem deterministicID_symmetric_single_record (a b : String)
    (store : Store) (now1 now2 : Nat) (p1 p2 : Bool)
    (ha : a ≠ "") (hb : b ≠ "") (hab : a ≠ b) :
    createRelationshipID a b = createRelationshipID b a ∧
    List.countP (fun p => p.1 == createRelationshipID a b)
      (requestConnection (some b) (some ⟨a⟩)
        (requestConnection (some a) (some ⟨b⟩) store now1 true p1).store
        now2 true p2).store = 1 := by
  refine ⟨createRelationshipID_comm a b, ?_⟩
  rw [requestConnection_ok a b store now1 p1 hb (fun h => hab h.symm)]
  rw [requestConnection_ok b a _ now2 p2 ha hab]
  rw [← createRelationshipID_comm a b]
  exact countP_docSet _ _ _

/-- Witness for C1 at concrete identifiers. -/
theorem deterministicID_symmetric_single_record_witness :
    createRelationshipID "alice" "bob" = createRelationshipID "bob" "alice" ∧
    List.countP (fun p => p.1 == createRelationshipID "alice" "bob")
      (requestConnection (some "bob") (some ⟨"alice"⟩)
        (requestConnection (some "alice") (some ⟨"bob"⟩) [] 1 true true).store
        2 true true).store = 1 :=
  deterministicID_symmetric_single_record "alice" "bob" [] 1 2 true true
    (by decide) (by decide) (by decide)

/-- Unordered-pair injectivity of the derived id, for identifiers that do
not contain the separator character. -/
theorem createRelationshipID_inj (a b c d : String)
    (ha : '_' ∉ a.data) (hb : '_' ∉ b.data)
    (hc : '_' ∉ c.data) (hd : '_' ∉ d.data)
    (h : createRelationshipID a b = createRelationshipID c d) :
    (a = c ∧ b = d) ∨ (a = d ∧ b = c) := by
  have key : ∀ x y z w : String, '_' ∉ x.data → '_' ∉ z.data →
      x ++ "_" ++ y = z ++ "_" ++ w → x = z ∧ y = w := by
    intro x y z w hx hz hxy
    have hdata := congrArg String.data hxy
    rw [data_sep, data_sep] at hdata
    have hsplit := append_sep_inj _ _ _ _ hx hz hdata
    exact ⟨str_data_inj _ _ hsplit.1, str_data_inj _ _ hsplit.2⟩
  unfold createRelationshipID goStringLe at h
  by_cases h1 : charListLe a.data b.data = true
  · rw [if_pos h1] at h
    by_cases h2 : charListLe c.data d.data = true
    · rw [if_pos h2] at h
      exact Or.inl (key a b c d ha hc h)
    · rw [if_neg h2] at h
      exact Or.inr (key a b d c ha hd h)
  · rw [if_neg h1] at h
    by_cases h2 : charListLe c.data d.data = true
    · rw [if_pos h2] at h
      have hba := key b a c d hb hc h
      exact Or.inr ⟨hba.2, hba.1⟩
    · rw [if_neg h2] at h
      have hba := key b a d c hb hd h
      exact Or.inl ⟨hba.2, hba.1⟩

/-- C2 is false as stated: the unordered pairs \x7b"a","b_c"\x7d and
\x7b"a_b","c"\x7d are distinct (made of distinct non-empty identifiers)
yet derive the same relationship id "a_b_c". -/
theorem createRelationshipID_not_injective_counterexample :
    ("a" : String) ≠ "b_c" ∧ ("a_b" : String) ≠ "c" ∧
    ("a" : String) ≠ "a_b" ∧ ("a" : String) ≠ "c" ∧
    ("b_c" : String) ≠ "a_b" ∧ ("b_c" : String) ≠ "c" ∧
    createRelationshipID "a" "b_c" = createRelationshipID "a_b" "c" := by
  decide

/-- C2 (amended): `createRelationshipID` is injective on unordered pairs of
distinct identifiers that do not contain the separator character, so no two
such pairs share a stored record. -/
theorem createRelationshipID_injective_on_sep_free_pairs
    (a b c d : String)
    (ha : '_' ∉ a.data) (hb : '_' ∉ b.data)
    (hc : '_' ∉ c.data) (hd : '_' ∉ d.data)
    (hab : a ≠ b) (hcd : c ≠ d)
    (hpairs : ¬((a = c ∧ b = d) ∨ (a = d ∧ b = c))) :
    createRelationshipID a b ≠ createRelationshipID c d :=
  fun h => hpairs (createRelationshipID_inj a b c d ha hb hc hd h)

/-- Witness for C2's amended theorem at concrete identifiers. -/
theorem createRelationshipID_injective_witness :
    createRelationshipID "alice" "bob" ≠ createRelationshipID "alice" "carol" :=
  createRelationshipID_injective_on_sep_free_pairs "alice" "bob" "alice"
    "carol" (by decide) (by decide) (by decide) (by decide) (by decide)
    (by decide) (by decide)

theorem docUpdate_some_of_get (s : Store) (k st : String) (now : Nat)
    (r : StoredRel) (hget : docGet s k = some r) :
    ∃ s2, docUpdate s k st now = some s2 := by
  cases hu : docUpdate s k st now with
  | some s2 => exact ⟨s2, rfl⟩
  | none =>
    rw [docUpdate_eq_none_iff] at hu
    rw [hu] at hget
    cases hget

/-- Shape of an `acceptConnection` call on a missing record. -/
theorem acceptConnection_missing (uid fromUid : String) (store : Store)
    (now : Nat) (pOk rOk : Bool) (hf : fromUid ≠ "")
    (hmiss : docGet store (createRelationshipID fromUid uid) = none) :
    acceptConnection (some uid) (some ⟨fromUid⟩) store now pOk rOk =
      ⟨.internalServerError "Failed to accept connection", store, [],
        ["Failed to accept connection"]⟩ := by
  have hupd : docUpdate store (createRelationshipID fromUid uid)
      StatusAccepted now = none :=
    (docUpdate_eq_none_iff _ _ _ _).mpr hmiss
  simp only [acceptConnection]
  rw [if_neg hf, hupd]

/-- C3 is false as stated at this concrete input: accepting a relationship
that does not exist returns HTTP 500 (the handler maps the storage error to
InternalServerError), not 404; nothing is written. -/
theorem accept_missing_returns_500_counterexample :
    (acceptConnection (some "b") (some ⟨"nonexistent"⟩) [] 0 true
      true).res.statusCode = 500 ∧
    (acceptConnection (some "b") (some ⟨"nonexistent"⟩) [] 0 true
      true).res.statusCode ≠ 404 ∧
    (acceptConnection (some "b") (some ⟨"nonexistent"⟩) [] 0 true
      true).store = [] := by
  decide

/-- C3 (amended): for every actingID and non-empty fromID with no record at
the derived id, Accept fails on the storage-level missing-key error and the
handler surfaces it as HTTP 500 InternalServerError (not 404); no record is
created and no event is published. -/
theorem accept_missing_fails_no_write (uid fromUid : String) (store : Store)
    (now : Nat) (pOk rOk : Bool) (hf : fromUid ≠ "")
    (hmiss : docGet store (createRelationshipID fromUid uid) = none) :
    (acceptConnection (some uid) (some ⟨fromUid⟩) store now pOk rOk).res =
      .internalServerError "Failed to accept connection" ∧
    (acceptConnection (some uid) (some ⟨fromUid⟩) store now pOk
      rOk).res.statusCode = 500 ∧
    (acceptConnection (some uid) (some ⟨fromUid⟩) store now pOk rOk).store =
      store ∧
    (acceptConnection (some uid) (some ⟨fromUid⟩) store now pOk rOk).events =
      [] := by
  rw [acceptConnection_missing uid fromUid store now pOk rOk hf hmiss]
  exact ⟨rfl, rfl, rfl, rfl⟩

/-- Witness for C3's amended theorem at a concrete input. -/
theorem accept_missing_fails_no_write_witness :
    (acceptConnection (some "b") (some ⟨"a"⟩) [] 0 true true).res =
      .internalServerError "Failed to accept connection" ∧
    (acceptConnection (some "b") (some ⟨"a"⟩) [] 0 true
      true).res.statusCode = 500 ∧
    (acceptConnection (some "b") (some ⟨"a"⟩) [] 0 true true).store = [] ∧
    (acceptConnection (some "b") (some ⟨"a"⟩) [] 0 true true).events = [] :=
  accept_missing_fails_no_write "b" "a" [] 0 true true (by decide)
    (by decide)

/-- C4: for distinct non-empty fromID and toID, a Request whose storage
write succeeds unconditionally writes a Requested relationship with
createdAt = updatedAt = now at the derived id — overwriting any existing
record for the pair and leaving a single record — and returns HTTP 201 with
the created relationship including its derived id. -/
theorem request_overwrites_and_returns_201 (uid target : String)
    (store : Store) (now : Nat) (publishOk : Bool)
    (huid : uid ≠ "") (h1 : target ≠ "") (h2 : target ≠ uid) :
    (requestConnection (some uid) (some ⟨target⟩) store now true
      publishOk).res = .created ⟨createRelationshipID uid target, uid,
        target, StatusRequested, now, now⟩ ∧
    (requestConnection (some uid) (some ⟨target⟩) store now true
      publishOk).res.statusCode = 201 ∧
    docGet (requestConnection (some uid) (some ⟨target⟩) store now true
      publishOk).store (createRelationshipID uid target) =
      some ⟨uid, target, StatusRequested, now, now⟩ ∧
    List.countP (fun p => p.1 == createRelationshipID uid target)
      (requestConnection (some uid) (some ⟨target⟩) store now true
        publishOk).store = 1 ∧
    (∀ k, k ≠ createRelationshipID uid target →
      docGet (requestConnection (some uid) (some ⟨target⟩) store now true
        publishOk).store k = docGet store k) := by
  rw [requestConnection_ok uid target store now publishOk h1 h2]
  refine ⟨rfl, rfl, docGet_docSet_self _ _ _, countP_docSet _ _ _, ?_⟩
  intro k hk
  exact docGet_docSet_ne store _ k _ hk

/-- Witness for C4: re-requesting a pair whose record is Accepted resets it
to Requested with a fresh createdAt. -/
theorem request_overwrites_witness :
    (requestConnection (some "a") (some ⟨"b"⟩)
      [("a_b", ⟨"b", "a", StatusAccepted, 5, 6⟩)] 10 true true).res =
      .created ⟨createRelationshipID "a" "b", "a", "b", StatusRequested,
        10, 10⟩ ∧
    (requestConnection (some "a") (some ⟨"b"⟩)
      [("a_b", ⟨"b", "a", StatusAccepted, 5, 6⟩)] 10 true
      true).res.statusCode = 201 ∧
    docGet (requestConnection (some "a") (some ⟨"b"⟩)
      [("a_b", ⟨"b", "a", StatusAccepted, 5, 6⟩)] 10 true true).store
      (createRelationshipID "a" "b") =
      some ⟨"a", "b", StatusRequested, 10, 10⟩ ∧
    List.countP (fun p => p.1 == createRelationshipID "a" "b")
      (requestConnection (some "a") (some ⟨"b"⟩)
        [("a_b", ⟨"b", "a", StatusAccepted, 5, 6⟩)] 10 true true).store =
        1 ∧
    (∀ k, k ≠ createRelationshipID "a" "b" →
      docGet (requestConnection (some "a") (some ⟨"b"⟩)
        [("a_b", ⟨"b", "a", StatusAccepted, 5, 6⟩)] 10 true true).store k =
        docGet [("a_b", ⟨"b", "a", StatusAccepted, 5, 6⟩)] k) :=
  request_overwrites_and_returns_201 "a" "b"
    [("a_b", ⟨"b", "a", StatusAccepted, 5, 6⟩)] 10 true (by decide)
    (by decide) (by decide)

/-- Shape of an `acceptConnection` call whose update and post-update read
both succeed. -/
theorem acceptConnection_success (uid fromUid : String) (store s2 : Store)
    (now : Nat) (pOk : Bool) (v : StoredRel) (hf : fromUid ≠ "")
    (hupd : docUpdate store (createRelationshipID fromUid uid)
      StatusAccepted now = some s2)
    (hv : docGet s2 (createRelationshipID fromUid uid) = some v) :
    acceptConnection (some uid) (some ⟨fromUid⟩) store now pOk true =
      ⟨.success (relOf (createRelationshipID fromUid uid) v), s2,
        [("connection.accepted", ⟨fromUid, uid, now⟩)],
        if pOk then []
        else ["Failed to publish connection.accepted event"]⟩ := by
  simp only [acceptConnection]
  rw [if_neg hf, hupd]
  simp [hv]

/-- Shape of an `acceptConnection` call whose update succeeds but whose
post-update read fails. -/
theorem acceptConnection_readfail (uid fromUid : String) (store s2 : Store)
    (now : Nat) (pOk : Bool) (hf : fromUid ≠ "")
    (hupd : docUpdate store (createRelationshipID fromUid uid)
      StatusAccepted now = some s2) :
    acceptConnection (some uid) (some ⟨fromUid⟩) store now pOk false =
      ⟨.internalServerError "Failed to get updated relationship", s2,
        [("connection.accepted", ⟨fromUid, uid, now⟩)],
        (if pOk then []
         else ["Failed to publish connection.accepted event"]) ++
          ["Failed to get updated relationship"]⟩ := by
  simp only [acceptConnection]
  rw [if_neg hf, hupd]
  simp

/-- Shape of a `rejectConnection` call whose update and post-update read
both succeed. -/
theorem rejectConnection_success (uid fromUid : String) (store s2 : Store)
    (now : Nat) (v : StoredRel) (hf : fromUid ≠ "")
    (hupd : docUpdate store (createRelationshipID fromUid uid)
      StatusRejected now = some s2)
    (hv : docGet s2 (createRelationshipID fromUid uid) = some v) :
    rejectConnection (some uid) (some ⟨fromUid⟩) store now true =
      ⟨.success (relOf (createRelationshipID fromUid uid) v), s2, [],
        []⟩ := by
  simp only [rejectConnection]
  rw [if_neg hf, hupd]
  simp [hv]

/-- Shape of a `rejectConnection` call whose update succeeds but whose
post-update read fails. -/
theorem rejectConnection_readfail (uid fromUid : String) (store s2 : Store)
    (now : Nat) (hf : fromUid ≠ "")
    (hupd : docUpdate store (createRelationshipID fromUid uid)
      StatusRejected now = some s2) :
    rejectConnection (some uid) (some ⟨fromUid⟩) store now false =
      ⟨.internalServerError "Failed to get updated relationship", s2, [],
        ["Failed to get updated relationship"]⟩ := by
  simp only [rejectConnection]
  rw [if_neg hf, hupd]
  simp

/-- C5: a successful Accept or Reject on an existing record mutates only
the status and updatedAt fields; fromID, toID and createdAt stored on the
record are unchanged by both operations (invariant INV-3). -/
theorem accept_reject_mutate_only_status_updatedAt (uid fromUid : String)
    (store : Store) (now : Nat) (pOk : Bool) (r : StoredRel)
    (hf : fromUid ≠ "")
    (hr : docGet store (createRelationshipID fromUid uid) = some r) :
    (∃ r', docGet (acceptConnection (some uid) (some ⟨fromUid⟩) store now
        pOk true).store (createRelationshipID fromUid uid) = some r' ∧
      r'.fromUid = r.fromUid ∧ r'.toUid = r.toUid ∧
      r'.createdAt = r.createdAt ∧
      r'.status = StatusAccepted ∧ r'.updatedAt = now) ∧
    (∃ r', docGet (rejectConnection (some uid) (some ⟨fromUid⟩) store now
        true).store (createRelationshipID fromUid uid) = some r' ∧
      r'.fromUid = r.fromUid ∧ r'.toUid = r.toUid ∧
      r'.createdAt = r.createdAt ∧
      r'.status = StatusRejected ∧ r'.updatedAt = now) := by
  constructor
  · obtain ⟨s2, hupd⟩ :=
      docUpdate_some_of_get store _ StatusAccepted now r hr
    obtain ⟨hgot, -⟩ :=
      docUpdate_some_get store s2 _ StatusAccepted now r hupd hr
    rw [acceptConnection_success uid fromUid store s2 now pOk _ hf hupd hgot]
    exact ⟨{ r with status := StatusAccepted, updatedAt := now }, hgot,
      rfl, rfl, rfl, rfl, rfl⟩
  · obtain ⟨s2, hupd⟩ :=
      docUpdate_some_of_get store _ StatusRejected now r hr
    obtain ⟨hgot, -⟩ :=
      docUpdate_some_get store s2 _ StatusRejected now r hupd hr
    rw [rejectConnection_success uid fromUid store s2 now _ hf hupd hgot]
    exact ⟨{ r with status := StatusRejected, updatedAt := now }, hgot,
      rfl, rfl, rfl, rfl, rfl⟩

/-- Witness for C5 at a concrete Requested record. -/
theorem accept_reject_mutate_only_witness :
    (∃ r', docGet (acceptConnection (some "b") (some ⟨"a"⟩)
        [("a_b", ⟨"a", "b", StatusRequested, 3, 3⟩)] 7 true true).store
        (createRelationshipID "a" "b") = some r' ∧
      r'.fromUid = "a" ∧ r'.toUid = "b" ∧ r'.createdAt = 3 ∧
      r'.status = StatusAccepted ∧ r'.updatedAt = 7) ∧
    (∃ r', docGet (rejectConnection (some "b") (some ⟨"a"⟩)
        [("a_b", ⟨"a", "b", StatusRequested, 3, 3⟩)] 7 true).store
        (createRelationshipID "a" "b") = some r' ∧
      r'.fromUid = "a" ∧ r'.toUid = "b" ∧ r'.createdAt = 3 ∧
      r'.status = StatusRejected ∧ r'.updatedAt = 7) :=
  accept_reject_mutate_only_status_updatedAt "b" "a"
    [("a_b", ⟨"a", "b", StatusRequested, 3, 3⟩)] 7 true
    ⟨"a", "b", StatusRequested, 3, 3⟩ (by decide) (by decide)

/-- C6: a successful Accept publishes exactly one connection.accepted event
carrying the caller-supplied fromUid, toUid = actingID and createdAt = the
update time (not the record's original createdAt); Reject sets status to
Rejected, returns the post-update relationship, and publishes no event. -/
theorem accept_publishes_one_event_reject_none (uid fromUid : String)
    (store : Store) (now : Nat) (pOk : Bool) (r : StoredRel)
    (hf : fromUid ≠ "")
    (hr : docGet store (createRelationshipID fromUid uid) = some r) :
    (acceptConnection (some uid) (some ⟨fromUid⟩) store now pOk
      true).events = [("connection.accepted", ⟨fromUid, uid, now⟩)] ∧
    (rejectConnection (some uid) (some ⟨fromUid⟩) store now true).events =
      [] ∧
    (rejectConnection (some uid) (some ⟨fromUid⟩) store now true).res =
      .success ⟨createRelationshipID fromUid uid, r.fromUid, r.toUid,
        StatusRejected, r.createdAt, now⟩ := by
  obtain ⟨sA, hupdA⟩ := docUpdate_some_of_get store _ StatusAccepted now r hr
  obtain ⟨hgotA, -⟩ :=
    docUpdate_some_get store sA _ StatusAccepted now r hupdA hr
  obtain ⟨sR, hupdR⟩ := docUpdate_some_of_get store _ StatusRejected now r hr
  obtain ⟨hgotR, -⟩ :=
    docUpdate_some_get store sR _ StatusRejected now r hupdR hr
  rw [acceptConnection_success uid fromUid store sA now pOk _ hf hupdA hgotA]
  rw [rejectConnection_success uid fromUid store sR now _ hf hupdR hgotR]
  exact ⟨rfl, rfl, rfl⟩

/-- Witness for C6 at a concrete Requested record. -/
theorem accept_publishes_one_event_witness :
    (acceptConnection (some "b") (some ⟨"a"⟩)
      [("a_b", ⟨"a", "b", StatusRequested, 3, 3⟩)] 7 true true).events =
      [("connection.accepted", ⟨"a", "b", 7⟩)] ∧
    (rejectConnection (some "b") (some ⟨"a"⟩)
      [("a_b", ⟨"a", "b", StatusRequested, 3, 3⟩)] 7 true).events = [] ∧
    (rejectConnection (some "b") (some ⟨"a"⟩)
      [("a_b", ⟨"a", "b", StatusRequested, 3, 3⟩)] 7 true).res =
      .success ⟨createRelationshipID "a" "b", "a", "b", StatusRejected, 3,
        7⟩ :=
  accept_publishes_one_event_reject_none "b" "a"
    [("a_b", ⟨"a", "b", StatusRequested, 3, 3⟩)] 7 true
    ⟨"a", "b", StatusRequested, 3, 3⟩ (by decide) (by decide)

/-- C7: when the storage write succeeds, a failing event-bus publish does
not change the HTTP result or the stored state of Request or Accept — the
failure is only recorded in the error log and the operation still returns
its success result (201 for Request, 200 for Accept). -/
theorem publish_failure_does_not_fail_operation (uidR target uidA fromUid :
    String) (store storeA : Store) (nowR nowA : Nat) (r : StoredRel)
    (h1 : target ≠ "") (h2 : target ≠ uidR) (hf : fromUid ≠ "")
    (hr : docGet storeA (createRelationshipID fromUid uidA) = some r) :
    (requestConnection (some uidR) (some ⟨target⟩) store nowR true
      false).res =
      (requestConnection (some uidR) (some ⟨target⟩) store nowR true
        true).res ∧
    (requestConnection (some uidR) (some ⟨target⟩) store nowR true
      false).store =
      (requestConnection (some uidR) (some ⟨target⟩) store nowR true
        true).store ∧
    (requestConnection (some uidR) (some ⟨target⟩) store nowR true
      false).res.statusCode = 201 ∧
    "Failed to publish connection.requested event" ∈
      (requestConnection (some uidR) (some ⟨target⟩) store nowR true
        false).errorLogs ∧
    (acceptConnection (some uidA) (some ⟨fromUid⟩) storeA nowA false
      true).res =
      (acceptConnection (some uidA) (some ⟨fromUid⟩) storeA nowA true
        true).res ∧
    (acceptConnection (some uidA) (some ⟨fromUid⟩) storeA nowA false
      true).store =
      (acceptConnection (some uidA) (some ⟨fromUid⟩) storeA nowA true
        true).store ∧
    (acceptConnection (some uidA) (some ⟨fromUid⟩) storeA nowA false
      true).res.statusCode = 200 ∧
    "Failed to publish connection.accepted event" ∈
      (acceptConnection (some uidA) (some ⟨fromUid⟩) storeA nowA false
        true).errorLogs := by
  obtain ⟨s2, hupd⟩ :=
    docUpdate_some_of_get storeA _ StatusAccepted nowA r hr
  obtain ⟨hgot, -⟩ := docUpdate_some_get storeA s2 _ StatusAccepted nowA r
    hupd hr
  rw [requestConnection_ok uidR target store nowR false h1 h2,
    requestConnection_ok uidR target store nowR true h1 h2,
    acceptConnection_success uidA fromUid storeA s2 nowA false _ hf hupd
      hgot,
    acceptConnection_success uidA fromUid storeA s2 nowA true _ hf hupd
      hgot]
  refine ⟨rfl, rfl, rfl, ?_, rfl, rfl, rfl, ?_⟩ <;> simp

/-- Witness for C7 at concrete inputs. -/
theorem publish_failure_does_not_fail_operation_witness :
    (requestConnection (some "a") (some ⟨"b"⟩) [] 1 true false).res =
      (requestConnection (some "a") (some ⟨"b"⟩) [] 1 true true).res ∧
    (requestConnection (some "a") (some ⟨"b"⟩) [] 1 true false).store =
      (requestConnection (some "a") (some ⟨"b"⟩) [] 1 true true).store ∧
    (requestConnection (some "a") (some ⟨"b"⟩) [] 1 true
      false).res.statusCode = 201 ∧
    "Failed to publish connection.requested event" ∈
      (requestConnection (some "a") (some ⟨"b"⟩) [] 1 true
        false).errorLogs ∧
    (acceptConnection (some "b") (some ⟨"a"⟩)
      [("a_b", ⟨"a", "b", StatusRequested, 3, 3⟩)] 7 false true).res =
      (acceptConnection (some "b") (some ⟨"a"⟩)
        [("a_b", ⟨"a", "b", StatusRequested, 3, 3⟩)] 7 true true).res ∧
    (acceptConnection (some "b") (some ⟨"a"⟩)
      [("a_b", ⟨"a", "b", StatusRequested, 3, 3⟩)] 7 false true).store =
      (acceptConnection (some "b") (some ⟨"a"⟩)
        [("a_b", ⟨"a", "b", StatusRequested, 3, 3⟩)] 7 true true).store ∧
    (acceptConnection (some "b") (some ⟨"a"⟩)
      [("a_b", ⟨"a", "b", StatusRequested, 3, 3⟩)] 7 false
      true).res.statusCode = 200 ∧
    "Failed to publish connection.accepted event" ∈
      (acceptConnection (some "b") (some ⟨"a"⟩)
        [("a_b", ⟨"a", "b", StatusRequested, 3, 3⟩)] 7 false
        true).errorLogs :=
  publish_failure_does_not_fail_operation "a" "b" "b" "a" []
    [("a_b", ⟨"a", "b", StatusRequested, 3, 3⟩)] 1 7
    ⟨"a", "b", StatusRequested, 3, 3⟩ (by decide) (by decide) (by decide)
    (by decide)

/-- C8: a Request whose target is empty or equal to the caller identity is
rejected with HTTP 400, writes nothing to storage and publishes no
event. -/
theorem request_invalid_target_rejected (uid target : String)
    (store : Store) (now : Nat) (setOk pOk : Bool)
    (h : target = "" ∨ target = uid) :
    (requestConnection (some uid) (some ⟨target⟩) store now setOk
      pOk).res.statusCode = 400 ∧
    (requestConnection (some uid) (some ⟨target⟩) store now setOk
      pOk).store = store ∧
    (requestConnection (some uid) (some ⟨target⟩) store now setOk
      pOk).events = [] := by
  by_cases he : target = ""
  · simp only [requestConnection]
    rw [if_pos he]
    exact ⟨rfl, rfl, rfl⟩
  · have ht : target = uid := h.resolve_left he
    simp only [requestConnection]
    rw [if_neg he, if_pos ht]
    exact ⟨rfl, rfl, rfl⟩

/-- Witness for C8: a self-connection request fails with 400 and has no
effect. -/
theorem request_invalid_target_rejected_witness :
    (requestConnection (some "x") (some ⟨"x"⟩) [] 0 true
      true).res.statusCode = 400 ∧
    (requestConnection (some "x") (some ⟨"x"⟩) [] 0 true true).store =
      [] ∧
    (requestConnection (some "x") (some ⟨"x"⟩) [] 0 true true).events =
      [] :=
  request_invalid_target_rejected "x" "x" [] 0 true true (Or.inr rfl)

/-- C9: ListConnections defaults the status filter to Accepted when none is
supplied, returns exactly the union of the records with fromUid = actingID
and those with toUid = actingID (both filtered by the effective status)
with count equal to the length, and returns the empty sequence when nothing
matches. -/
theorem getConnections_union_default_empty (uid statusParam : String)
    (store : Store) :
    ∃ conns : List Relationship,
      getConnections (some uid) statusParam store =
        ⟨.successList conns conns.length, store, [], []⟩ ∧
      (∀ rel, rel ∈ conns ↔ ∃ k r, (k, r) ∈ store ∧ rel = relOf k r ∧
        r.status = (if statusParam = "" then StatusAccepted
          else statusParam) ∧
        (r.fromUid = uid ∨ r.toUid = uid)) ∧
      ((∀ k r, (k, r) ∈ store →
          ¬(r.status = (if statusParam = "" then StatusAccepted
              else statusParam) ∧
            (r.fromUid = uid ∨ r.toUid = uid))) →
        conns = []) := by
  refine ⟨queryByFromStatus store uid
      (if statusParam = "" then StatusAccepted else statusParam) ++
    queryByToStatus store uid
      (if statusParam = "" then StatusAccepted else statusParam),
    rfl, ?_, ?_⟩
  · intro rel
    simp only [List.mem_append, queryByFromStatus, queryByToStatus,
      List.mem_map, List.mem_filter, Bool.and_eq_true, beq_iff_eq]
    constructor
    · rintro (⟨⟨k, r⟩, ⟨hmem, hfrom, hstat⟩, heq⟩ |
        ⟨⟨k, r⟩, ⟨hmem, hto, hstat⟩, heq⟩)
      · exact ⟨k, r, hmem, heq.symm, hstat, Or.inl hfrom⟩
      · exact ⟨k, r, hmem, heq.symm, hstat, Or.inr hto⟩
    · rintro ⟨k, r, hmem, heq, hstat, hfrom | hto⟩
      · exact Or.inl ⟨(k, r), ⟨hmem, hfrom, hstat⟩, heq.symm⟩
      · exact Or.inr ⟨(k, r), ⟨hmem, hto, hstat⟩, heq.symm⟩
  · intro hnone
    rw [List.eq_nil_iff_forall_not_mem]
    intro rel hrel
    rcases List.mem_append.mp hrel with hmem | hmem
    · simp only [queryByFromStatus, List.mem_map, List.mem_filter,
        Bool.and_eq_true, beq_iff_eq] at hmem
      obtain ⟨⟨k, r⟩, ⟨hin, hfrom, hstat⟩, -⟩ := hmem
      exact hnone k r hin ⟨hstat, Or.inl hfrom⟩
    · simp only [queryByToStatus, List.mem_map, List.mem_filter,
        Bool.and_eq_true, beq_iff_eq] at hmem
      obtain ⟨⟨k, r⟩, ⟨hin, hto, hstat⟩, -⟩ := hmem
      exact hnone k r hin ⟨hstat, Or.inr hto⟩

/-- Witness-style instance of C9 at a concrete store and an absent status
parameter. -/
theorem getConnections_union_default_empty_witness :
    ∃ conns : List Relationship,
      getConnections (some "a") ""
        [("a_b", ⟨"a", "b", StatusAccepted, 1, 2⟩),
         ("a_c", ⟨"c", "a", StatusRequested, 3, 4⟩)] =
        ⟨.successList conns conns.length,
          [("a_b", ⟨"a", "b", StatusAccepted, 1, 2⟩),
           ("a_c", ⟨"c", "a", StatusRequested, 3, 4⟩)], [], []⟩ ∧
      (∀ rel, rel ∈ conns ↔ ∃ k r,
        (k, r) ∈ ([("a_b", ⟨"a", "b", StatusAccepted, 1, 2⟩),
          ("a_c", ⟨"c", "a", StatusRequested, 3, 4⟩)] : Store) ∧
        rel = relOf k r ∧
        r.status = (if ("" : String) = "" then StatusAccepted else "") ∧
        (r.fromUid = "a" ∨ r.toUid = "a")) ∧
      ((∀ k r, (k, r) ∈ ([("a_b", ⟨"a", "b", StatusAccepted, 1, 2⟩),
          ("a_c", ⟨"c", "a", StatusRequested, 3, 4⟩)] : Store) →
          ¬(r.status = (if ("" : String) = "" then StatusAccepted else "") ∧
            (r.fromUid = "a" ∨ r.toUid = "a"))) →
        conns = []) :=
  getConnections_union_default_empty "a" ""
    [("a_b", ⟨"a", "b", StatusAccepted, 1, 2⟩),
     ("a_c", ⟨"c", "a", StatusRequested, 3, 4⟩)]

/-- C10: Accept and Reject are not atomic — when the post-update read
fails, the handler returns HTTP 500 even though the status transition is
already committed to storage and (for Accept) the connection.accepted
event was already published. -/
theorem accept_reject_error_after_commit (uid fromUid : String)
    (store : Store) (now : Nat) (pOk : Bool) (r : StoredRel)
    (hf : fromUid ≠ "")
    (hr : docGet store (createRelationshipID fromUid uid) = some r) :
    (acceptConnection (some uid) (some ⟨fromUid⟩) store now pOk
      false).res.statusCode = 500 ∧
    docGet (acceptConnection (some uid) (some ⟨fromUid⟩) store now pOk
      false).store (createRelationshipID fromUid uid) =
      some { r with status := StatusAccepted, updatedAt := now } ∧
    (acceptConnection (some uid) (some ⟨fromUid⟩) store now pOk
      false).events = [("connection.accepted", ⟨fromUid, uid, now⟩)] ∧
    (rejectConnection (some uid) (some ⟨fromUid⟩) store now
      false).res.statusCode = 500 ∧
    docGet (rejectConnection (some uid) (some ⟨fromUid⟩) store now
      false).store (createRelationshipID fromUid uid) =
      some { r with status := StatusRejected, updatedAt := now } ∧
    (rejectConnection (some uid) (some ⟨fromUid⟩) store now false).events =
      [] := by
  obtain ⟨sA, hupdA⟩ := docUpdate_some_of_get store _ StatusAccepted now r hr
  obtain ⟨hgotA, -⟩ :=
    docUpdate_some_get store sA _ StatusAccepted now r hupdA hr
  obtain ⟨sR, hupdR⟩ := docUpdate_some_of_get store _ StatusRejected now r hr
  obtain ⟨hgotR, -⟩ :=
    docUpdate_some_get store sR _ StatusRejected now r hupdR hr
  rw [acceptConnection_readfail uid fromUid store sA now pOk hf hupdA,
    rejectConnection_readfail uid fromUid store sR now hf hupdR]
  exact ⟨rfl, hgotA, rfl, rfl, hgotR, rfl⟩

/-- Witness for C10 at a concrete Requested record. -/
theorem accept_reject_error_after_commit_witness :
    (acceptConnection (some "b") (some ⟨"a"⟩)
      [("a_b", ⟨"a", "b", StatusRequested, 3, 3⟩)] 7 true
      false).res.statusCode = 500 ∧
    docGet (acceptConnection (some "b") (some ⟨"a"⟩)
      [("a_b", ⟨"a", "b", StatusRequested, 3, 3⟩)] 7 true false).store
      (createRelationshipID "a" "b") =
      some ⟨"a", "b", StatusAccepted, 3, 7⟩ ∧
    (acceptConnection (some "b") (some ⟨"a"⟩)
      [("a_b", ⟨"a", "b", StatusRequested, 3, 3⟩)] 7 true false).events =
      [("connection.accepted", ⟨"a", "b", 7⟩)] ∧
    (rejectConnection (some "b") (some ⟨"a"⟩)
      [("a_b", ⟨"a", "b", StatusRequested, 3, 3⟩)] 7
      false).res.statusCode = 500 ∧
    docGet (rejectConnection (some "b") (some ⟨"a"⟩)
      [("a_b", ⟨"a", "b", StatusRequested, 3, 3⟩)] 7 false).store
      (createRelationshipID "a" "b") =
      some ⟨"a", "b", StatusRejected, 3, 7⟩ ∧
    (rejectConnection (some "b") (some ⟨"a"⟩)
      [("a_b", ⟨"a", "b", StatusRequested, 3, 3⟩)] 7 false).events = [] :=
  accept_reject_error_after_commit "b" "a"
    [("a_b", ⟨"a", "b", StatusRequested, 3, 3⟩)] 7 true
    ⟨"a", "b", StatusRequested, 3, 3⟩ (by decide) (by decide)

end TrustLink
